import Mathlib

/-
Verification of the Grade/Attendance Aggregator of the SchoolManagementSystem
repository.  The grade model embeds the mongoose schema virtuals of the Grade
model (assignmentAverage, quizAverage, calculatedGrade, letterGradeFromPercentage,
gpaFromLetter), its pre-save hook and its document methods; the attendance model
embeds the Attendance model pre-save hook, the lock and unlock methods, the
markAttendance method, and the record-update route handler.  Scores, weights and
percentages are embedded as rationals.
-/

namespace SchoolMS

/-- One scored item of the assignments or quizzes array of a Grade document:
title, maxScore, score and weight (the remaining fields of the subdocument do
not enter any computation and are omitted). -/
structure ScoreComponent where
  maxScore : ℚ
  score : ℚ
  weight : ℚ
deriving Repr, DecidableEq

/-- The midterm or final subdocument of a Grade document: maxScore is required,
score is optional (undefined until graded). -/
structure FixedComponent where
  maxScore : ℚ
  score : Option ℚ
deriving Repr, DecidableEq

/-- The finalGrade subdocument of a Grade document. -/
structure FinalGrade where
  percentage : ℚ
  letterGrade : String
  gpa : ℚ
deriving Repr, DecidableEq

/-- A Grade document restricted to the fields read or written by the grade
computation and by the update route handlers. -/
structure GradeRecord where
  assignments : List ScoreComponent
  quizzes : List ScoreComponent
  midterm : FixedComponent
  final : FixedComponent
  participation : FixedComponent
  comments : Option String
  finalGrade : FinalGrade
  isPublished : Bool
deriving Repr, DecidableEq

/-- Virtual assignmentAverage of the Grade schema: 0 for an empty list,
otherwise the weighted sum of score/maxScore divided by the total weight,
times 100, guarded by totalWeight > 0. -/
def assignmentAverage (assignments : List ScoreComponent) : ℚ :=
  if assignments.length = 0 then 0
  else
    let totalScore := assignments.foldl
      (fun sum assignment => sum + (assignment.score / assignment.maxScore) * assignment.weight) 0
    let totalWeight := assignments.foldl (fun sum assignment => sum + assignment.weight) 0
    if totalWeight > 0 then (totalScore / totalWeight) * 100 else 0

/-- Virtual quizAverage of the Grade schema, same computation as
assignmentAverage but over the quizzes array. -/
def quizAverage (quizzes : List ScoreComponent) : ℚ :=
  if quizzes.length = 0 then 0
  else
    let totalScore := quizzes.foldl
      (fun sum quiz => sum + (quiz.score / quiz.maxScore) * quiz.weight) 0
    let totalWeight := quizzes.foldl (fun sum quiz => sum + quiz.weight) 0
    if totalWeight > 0 then (totalScore / totalWeight) * 100 else 0

/-- Virtual calculatedGrade of the Grade schema: accumulate the four category
contributions with their fixed weights (assignments 30, quizzes 20, midterm 25,
final 25), each category entering only when it has data, then divide by the
accumulated weight when it is positive. -/
def calculatedGrade (g : GradeRecord) : ℚ :=
  let totalScore1 : ℚ :=
    if g.assignments.length > 0 then 0 + (assignmentAverage g.assignments / 100) * 30 else 0
  let totalWeight1 : ℚ := if g.assignments.length > 0 then 0 + 30 else 0
  let totalScore2 : ℚ :=
    if g.quizzes.length > 0 then totalScore1 + (quizAverage g.quizzes / 100) * 20 else totalScore1
  let totalWeight2 : ℚ := if g.quizzes.length > 0 then totalWeight1 + 20 else totalWeight1
  let totalScore3 : ℚ :=
    match g.midterm.score with
    | some s => totalScore2 + (((s / g.midterm.maxScore) * 100) / 100) * 25
    | none => totalScore2
  let totalWeight3 : ℚ :=
    match g.midterm.score with
    | some _ => totalWeight2 + 25
    | none => totalWeight2
  let totalScore4 : ℚ :=
    match g.final.score with
    | some s => totalScore3 + (((s / g.final.maxScore) * 100) / 100) * 25
    | none => totalScore3
  let totalWeight4 : ℚ :=
    match g.final.score with
    | some _ => totalWeight3 + 25
    | none => totalWeight3
  if totalWeight4 > 0 then (totalScore4 / totalWeight4) * 100 else 0

/-- The if-chain of the letterGradeFromPercentage virtual, as a function of the
percentage it tests. -/
def letterOf (percentage : ℚ) : String :=
  if percentage ≥ 97 then "A+"
  else if percentage ≥ 93 then "A"
  else if percentage ≥ 90 then "A-"
  else if percentage ≥ 87 then "B+"
  else if percentage ≥ 83 then "B"
  else if percentage ≥ 80 then "B-"
  else if percentage ≥ 77 then "C+"
  else if percentage ≥ 73 then "C"
  else if percentage ≥ 70 then "C-"
  else if percentage ≥ 67 then "D+"
  else if percentage ≥ 63 then "D"
  else if percentage ≥ 60 then "D-"
  else "F"

/-- Virtual letterGradeFromPercentage of the Grade schema: the threshold chain
applied to calculatedGrade. -/
def letterGradeFromPercentage (g : GradeRecord) : String :=
  letterOf (calculatedGrade g)

/-- The gpaMap lookup of the gpaFromLetter virtual; a key absent from the map
falls back to 0.0. -/
def gpaMap (letterGrade : String) : ℚ :=
  if letterGrade = "A+" then 4 else if letterGrade = "A" then 4
  else if letterGrade = "A-" then 37/10
  else if letterGrade = "B+" then 33/10 else if letterGrade = "B" then 3
  else if letterGrade = "B-" then 27/10
  else if letterGrade = "C+" then 23/10 else if letterGrade = "C" then 2
  else if letterGrade = "C-" then 17/10
  else if letterGrade = "D+" then 13/10 else if letterGrade = "D" then 1
  else if letterGrade = "D-" then 7/10
  else 0

/-- Virtual gpaFromLetter of the Grade schema: the gpaMap lookup applied to
letterGradeFromPercentage. -/
def gpaFromLetter (g : GradeRecord) : ℚ :=
  gpaMap (letterGradeFromPercentage g)

/-- The gradeSchema pre-save hook (the recompute step of the spec): overwrite
finalGrade.percentage, finalGrade.letterGrade and finalGrade.gpa from the three
virtuals before the write commits. -/
def recompute (g : GradeRecord) : GradeRecord :=
  { g with finalGrade :=
      { percentage := calculatedGrade g
        letterGrade := letterGradeFromPercentage g
        gpa := gpaFromLetter g } }

/-- Document method addAssignment: push the component and save (the save runs
the pre-save hook). -/
def addAssignment (g : GradeRecord) (a : ScoreComponent) : GradeRecord :=
  recompute { g with assignments := g.assignments ++ [a] }

/-- Document method addQuiz: push the component and save (the save runs the
pre-save hook). -/
def addQuiz (g : GradeRecord) (q : ScoreComponent) : GradeRecord :=
  recompute { g with quizzes := g.quizzes ++ [q] }

/-- The error code of the published-grade rejection in the grade route
handlers (HTTP 400, error GRADE_PUBLISHED). -/
inductive GradeError where
  | gradePublished
deriving Repr, DecidableEq

/-- Outcome of a grade route handler: the error response sent, if any, and the
stored document after the request (unchanged when the request was rejected). -/
structure GradeHandlerResult where
  error : Option GradeError
  grade : GradeRecord
deriving Repr, DecidableEq

/-- Partial update of a midterm, final or participation subdocument, merged by
object spread in the update route handler. -/
structure FixedPatch where
  maxScore : Option ℚ
  score : Option ℚ
deriving Repr, DecidableEq

/-- Object spread of a FixedPatch over a FixedComponent: a field present in
the patch overrides the stored field. -/
def mergeFixed (f : FixedComponent) (p : FixedPatch) : FixedComponent :=
  { maxScore := p.maxScore.getD f.maxScore
    score := match p.score with | some s => some s | none => f.score }

/-- Request body of the PUT grade route: each field is updated only when
present in the body. -/
structure GradeUpdateBody where
  assignments : Option (List ScoreComponent)
  quizzes : Option (List ScoreComponent)
  midterm : Option FixedPatch
  final : Option FixedPatch
  participation : Option FixedPatch
  comments : Option String
deriving Repr, DecidableEq

/-- The PUT grade route handler: reject with GRADE_PUBLISHED when the record
is published, otherwise apply the body fields that are present and save (the
save runs the pre-save hook). -/
def updateGradeHandler (g : GradeRecord) (b : GradeUpdateBody) : GradeHandlerResult :=
  if g.isPublished then ⟨some GradeError.gradePublished, g⟩
  else
    let g1 := match b.assignments with
      | some l => { g with assignments := l } | none => g
    let g2 := match b.quizzes with
      | some l => { g1 with quizzes := l } | none => g1
    let g3 := match b.midterm with
      | some p => { g2 with midterm := mergeFixed g2.midterm p } | none => g2
    let g4 := match b.final with
      | some p => { g3 with final := mergeFixed g3.final p } | none => g3
    let g5 := match b.participation with
      | some p => { g4 with participation := mergeFixed g4.participation p } | none => g4
    let g6 := match b.comments with
      | some c => { g5 with comments := some c } | none => g5
    ⟨none, recompute g6⟩

/-- The POST assignments grade route handler: reject with GRADE_PUBLISHED when
the record is published, otherwise call the addAssignment document method. -/
def addAssignmentHandler (g : GradeRecord) (a : ScoreComponent) : GradeHandlerResult :=
  if g.isPublished then ⟨some GradeError.gradePublished, g⟩
  else ⟨none, addAssignment g a⟩

/-- The POST quizzes grade route handler: reject with GRADE_PUBLISHED when the
record is published, otherwise call the addQuiz document method. -/
def addQuizHandler (g : GradeRecord) (q : ScoreComponent) : GradeHandlerResult :=
  if g.isPublished then ⟨some GradeError.gradePublished, g⟩
  else ⟨none, addQuiz g q⟩

/-- Status enum of one entry of the records array of an Attendance document. -/
inductive AttStatus where
  | present
  | absent
  | late
  | excused
  | suspended
deriving Repr, DecidableEq

/-- One entry of the records array of an Attendance document (student id,
status, notes, markedAt timestamp; timeIn, timeOut and markedBy do not enter
any computation and are omitted).  Student ids and timestamps are embedded as
naturals. -/
structure AttRecord where
  student : Nat
  status : AttStatus
  notes : String
  markedAt : Nat
deriving Repr, DecidableEq

/-- An Attendance document restricted to the fields read or written by the
pre-save hook, the lock and unlock methods, the markAttendance method, and the
record-update route handler. -/
structure AttendanceDoc where
  records : List AttRecord
  totalStudents : Nat
  presentCount : Nat
  absentCount : Nat
  lateCount : Nat
  excusedCount : Nat
  attendancePercentage : ℚ
  notes : String
  isLocked : Bool
  lockedBy : Option Nat
  lockedAt : Option Nat
deriving Repr, DecidableEq

/-- Rounding of toFixed(2): round half up to two decimal places. -/
def round2 (x : ℚ) : ℚ := (round (x * 100) : ℚ) / 100

/-- The attendanceSchema pre-save hook: when the records array is non-empty,
recount the four status counters; when additionally the marked total is
positive, overwrite attendancePercentage with the rounded ratio. -/
def preSaveAttendance (d : AttendanceDoc) : AttendanceDoc :=
  if d.records.length > 0 then
    let presentCount := (d.records.filter (fun r => r.status = AttStatus.present)).length
    let absentCount := (d.records.filter (fun r => r.status = AttStatus.absent)).length
    let lateCount := (d.records.filter (fun r => r.status = AttStatus.late)).length
    let excusedCount := (d.records.filter (fun r => r.status = AttStatus.excused)).length
    let totalMarked := presentCount + absentCount + lateCount + excusedCount
    let d1 := { d with presentCount := presentCount, absentCount := absentCount,
                       lateCount := lateCount, excusedCount := excusedCount }
    if totalMarked > 0 then
      { d1 with attendancePercentage :=
          round2 (((presentCount : ℚ) + (lateCount : ℚ)) / (totalMarked : ℚ) * 100) }
    else d1
  else d

/-- Document method lockAttendance: set isLocked, record the locking user and
timestamp, and save (the save runs the pre-save hook). -/
def lockAttendance (d : AttendanceDoc) (userId : Nat) (t : Nat) : AttendanceDoc :=
  preSaveAttendance { d with isLocked := true, lockedBy := some userId, lockedAt := some t }

/-- Document method unlockAttendance: clear isLocked, the locking user and the
timestamp, and save (the save runs the pre-save hook). -/
def unlockAttendance (d : AttendanceDoc) : AttendanceDoc :=
  preSaveAttendance { d with isLocked := false, lockedBy := none, lockedAt := none }

/-- Update of the first record whose student matches, as performed by the
markAttendance document method; none when no record matches. -/
def setRecordStatus (rs : List AttRecord) (studentId : Nat) (status : AttStatus)
    (notes : String) (t : Nat) : Option (List AttRecord) :=
  match rs with
  | [] => none
  | r :: rest =>
    if r.student = studentId then
      some ({ r with status := status, notes := notes, markedAt := t } :: rest)
    else
      match setRecordStatus rest studentId status notes t with
      | some restUpd => some (r :: restUpd)
      | none => none

/-- Document method markAttendance: find the record of the student (throwing
when absent), overwrite its status, notes and markedAt, and save (the save
runs the pre-save hook).  The method contains no isLocked check. -/
def markAttendance (d : AttendanceDoc) (studentId : Nat) (status : AttStatus)
    (notes : String) (t : Nat) : Except String AttendanceDoc :=
  match setRecordStatus d.records studentId status notes t with
  | none => Except.error "Student not found in attendance records"
  | some rs => Except.ok (preSaveAttendance { d with records := rs })

/-- The error code of the locked-day rejection in the attendance update route
handler (HTTP 400, error ATTENDANCE_LOCKED). -/
inductive AttendanceError where
  | attendanceLocked
deriving Repr, DecidableEq

/-- Outcome of the attendance update route handler: the error response sent,
if any, and the stored document after the request (unchanged when the request
was rejected). -/
structure AttHandlerResult where
  error : Option AttendanceError
  doc : AttendanceDoc
deriving Repr, DecidableEq

/-- One entry of the records array of the PUT attendance request body. -/
structure AttUpdateRecord where
  studentId : Nat
  status : AttStatus
  notes : Option String
deriving Repr, DecidableEq

/-- Request body of the PUT attendance route. -/
structure AttUpdateBody where
  records : Option (List AttUpdateRecord)
  notes : Option String
deriving Repr, DecidableEq

/-- One step of the forEach of the PUT attendance route handler: update the
first stored record whose student matches the entry (status always; notes only
when the entry carries a non-empty one; markedAt to now), and skip entries
matching no stored record. -/
def applyAttUpdate (rs : List AttRecord) (u : AttUpdateRecord) (t : Nat) : List AttRecord :=
  match rs with
  | [] => []
  | r :: rest =>
    if r.student = u.studentId then
      { r with status := u.status
               notes := match u.notes with
                 | some s => if s = "" then r.notes else s
                 | none => r.notes
               markedAt := t } :: rest
    else r :: applyAttUpdate rest u t

/-- The PUT attendance route handler: reject with ATTENDANCE_LOCKED when the
day is locked, otherwise apply every body record entry in order, update the
day notes when a non-empty one is present, and save (the save runs the
pre-save hook). -/
def updateAttendanceHandler (d : AttendanceDoc) (b : AttUpdateBody) (t : Nat) : AttHandlerResult :=
  if d.isLocked then ⟨some AttendanceError.attendanceLocked, d⟩
  else
    let d1 := match b.records with
      | some us => { d with records := us.foldl (fun rs u => applyAttUpdate rs u t) d.records }
      | none => d
    let d2 := match b.notes with
      | some s => if s = "" then d1 else { d1 with notes := s }
      | none => d1
    ⟨none, preSaveAttendance d2⟩

/-- Modelled from the wording of the spec, for comparison with the source
virtuals: the category percentage of a non-empty component list, the weighted
average sum of score/maxScore times weight over the weight total, times 100. -/
def specCategoryPercentage (cs : List ScoreComponent) : ℚ :=
  ((cs.map (fun c => (c.score / c.maxScore) * c.weight)).sum
    / (cs.map (fun c => c.weight)).sum) * 100

/-- Modelled from the wording of the spec, for comparison with the source
calculatedGrade virtual: blend up to four categories with fixed weights 30,
20, 25 and 25, a category entering only when it has data; sum each included
category percentage over 100 times its weight, divide by the sum of included
weights and multiply by 100; 0 when no category has data. -/
def specFinalPercentage (g : GradeRecord) : ℚ :=
  let num : ℚ :=
    (if g.assignments ≠ [] then specCategoryPercentage g.assignments / 100 * 30 else 0) +
    (if g.quizzes ≠ [] then specCategoryPercentage g.quizzes / 100 * 20 else 0) +
    (match g.midterm.score with
     | some s => ((s / g.midterm.maxScore) * 100) / 100 * 25
     | none => 0) +
    (match g.final.score with
     | some s => ((s / g.final.maxScore) * 100) / 100 * 25
     | none => 0)
  let den : ℚ :=
    (if g.assignments ≠ [] then 30 else 0) +
    (if g.quizzes ≠ [] then 20 else 0) +
    (match g.midterm.score with | some _ => 25 | none => 0) +
    (match g.final.score with | some _ => 25 | none => 0)
  if den = 0 then 0 else (num / den) * 100

/-- Modelled from the wording of the spec, for comparison with the source
letter chain: the threshold table read as disjoint intervals, lowest first. -/
def specLetterGrade (p : ℚ) : String :=
  if p < 60 then "F" else if p < 63 then "D-" else if p < 67 then "D"
  else if p < 70 then "D+" else if p < 73 then "C-" else if p < 77 then "C"
  else if p < 80 then "C+" else if p < 83 then "B-" else if p < 87 then "B"
  else if p < 90 then "B+" else if p < 93 then "A-" else if p < 97 then "A"
  else "A+"

/-- An Attendance document as first built by the POST attendance route: the
given records, totalStudents from their number, every counter and the
percentage at their schema defaults, unlocked. -/
def freshAttendance (rs : List AttRecord) : AttendanceDoc :=
  { records := rs, totalStudents := rs.length, presentCount := 0, absentCount := 0,
    lateCount := 0, excusedCount := 0, attendancePercentage := 0, notes := "",
    isLocked := false, lockedBy := none, lockedAt := none }

/-- A concrete GradeRecord with data in all four categories, used to witness
the blend theorem. -/
def gC1 : GradeRecord :=
  { assignments := [⟨10, 9, 1⟩], quizzes := [⟨20, 15, 2⟩], midterm := ⟨50, some 40⟩,
    final := ⟨100, some 80⟩, participation := ⟨100, none⟩, comments := none,
    finalGrade := ⟨0, "F", 0⟩, isPublished := false }

/-- A concrete GradeRecord with one perfect assignment and an empty quiz list,
whose grade changes when a weight-0 quiz is appended. -/
def gC6 : GradeRecord :=
  { assignments := [⟨10, 10, 1⟩], quizzes := [], midterm := ⟨100, none⟩,
    final := ⟨100, none⟩, participation := ⟨100, none⟩, comments := none,
    finalGrade := ⟨0, "F", 0⟩, isPublished := false }

/-- A quiz component with weight 0 and a perfect score. -/
def qC6 : ScoreComponent := ⟨10, 10, 0⟩

/-- A concrete GradeRecord with a non-empty quiz list, used to witness the
amended weight-0 quiz theorem. -/
def gC6W : GradeRecord :=
  { assignments := [⟨10, 9, 1⟩], quizzes := [⟨10, 8, 1⟩], midterm := ⟨100, none⟩,
    final := ⟨100, none⟩, participation := ⟨100, none⟩, comments := none,
    finalGrade := ⟨0, "F", 0⟩, isPublished := false }

/-- An assignment whose score equals its maxScore but whose weight is 0. -/
def aC7 : ScoreComponent := ⟨10, 10, 0⟩

/-- A concrete GradeRecord whose only component is aC7: every present score
component is at full marks, yet its category carries total weight 0. -/
def gC7bad : GradeRecord :=
  { assignments := [aC7], quizzes := [], midterm := ⟨100, none⟩,
    final := ⟨100, none⟩, participation := ⟨100, none⟩, comments := none,
    finalGrade := ⟨0, "F", 0⟩, isPublished := false }

/-- A concrete GradeRecord with full marks in all four categories and positive
weights, used to witness the amended full-marks theorem. -/
def gC7 : GradeRecord :=
  { assignments := [⟨10, 10, 1⟩], quizzes := [⟨20, 20, 2⟩], midterm := ⟨50, some 50⟩,
    final := ⟨100, some 100⟩, participation := ⟨100, none⟩, comments := none,
    finalGrade := ⟨0, "F", 0⟩, isPublished := false }

/-- An assignment list containing a component with negative maxScore, on which
the category average silently computes a number instead of failing. -/
def csC5 : List ScoreComponent := [⟨-10, 10, 1⟩, ⟨10, 10, 1⟩]

/-- A concrete published GradeRecord. -/
def gC9 : GradeRecord :=
  { assignments := [], quizzes := [], midterm := ⟨100, none⟩, final := ⟨100, none⟩,
    participation := ⟨100, none⟩, comments := none, finalGrade := ⟨100, "A+", 4⟩,
    isPublished := true }

/-- A concrete grade update body attempting to overwrite the assignments and
the comments. -/
def bC9 : GradeUpdateBody :=
  { assignments := some [⟨10, 5, 1⟩], quizzes := none, midterm := none,
    final := none, participation := none, comments := some "changed" }

/-- A concrete locked AttendanceDoc holding one present record. -/
def dC4 : AttendanceDoc :=
  { records := [⟨1, AttStatus.present, "", 0⟩], totalStudents := 1, presentCount := 1,
    absentCount := 0, lateCount := 0, excusedCount := 0, attendancePercentage := 100,
    notes := "", isLocked := true, lockedBy := some 9, lockedAt := some 4 }

/-- The document produced by marking student 1 late at time 5 on dC4: the
record is mutated even though the day is locked. -/
def dC4After : AttendanceDoc :=
  { records := [⟨1, AttStatus.late, "", 5⟩], totalStudents := 1, presentCount := 0,
    absentCount := 0, lateCount := 1, excusedCount := 0, attendancePercentage := 100,
    notes := "", isLocked := true, lockedBy := some 9, lockedAt := some 4 }

/-- A concrete attendance update body. -/
def bC4 : AttUpdateBody :=
  { records := some [⟨1, AttStatus.absent, some "sick"⟩], notes := some "note" }

/-- A concrete open (unlocked) AttendanceDoc holding one present record. -/
def dC4Open : AttendanceDoc :=
  { records := [⟨1, AttStatus.present, "", 0⟩], totalStudents := 1, presentCount := 1,
    absentCount := 0, lateCount := 0, excusedCount := 0, attendancePercentage := 100,
    notes := "", isLocked := false, lockedBy := none, lockedAt := none }

/-- The record list of the worked spec example: present, present, absent,
late. -/
def rs75 : List AttRecord :=
  [⟨1, AttStatus.present, "", 0⟩, ⟨2, AttStatus.present, "", 0⟩,
   ⟨3, AttStatus.absent, "", 0⟩, ⟨4, AttStatus.late, "", 0⟩]

/-- A record list with one present and one suspended entry. -/
def rsC3 : List AttRecord :=
  [⟨1, AttStatus.present, "", 0⟩, ⟨2, AttStatus.suspended, "", 0⟩]

/-- A concrete AttendanceDoc whose records were emptied while stale aggregate
fields remain stored. -/
def dC10empty : AttendanceDoc :=
  { records := [], totalStudents := 5, presentCount := 3, absentCount := 1, lateCount := 1,
    excusedCount := 0, attendancePercentage := 80, notes := "", isLocked := false,
    lockedBy := none, lockedAt := none }

/-- A concrete AttendanceDoc whose only record is suspended while a stale
percentage remains stored. -/
def dC10susp : AttendanceDoc :=
  { records := [⟨1, AttStatus.suspended, "", 0⟩], totalStudents := 1, presentCount := 2,
    absentCount := 0, lateCount := 0, excusedCount := 0, attendancePercentage := 80,
    notes := "", isLocked := false, lockedBy := none, lockedAt := none }

/-- Folding addition of the score contributions equals the sum of the mapped
list. -/
theorem foldl_score_eq_sum (l : List ScoreComponent) (init : ℚ) :
    l.foldl (fun sum c => sum + (c.score / c.maxScore) * c.weight) init
      = init + (l.map (fun c => (c.score / c.maxScore) * c.weight)).sum := by
  induction l generalizing init with
  | nil => simp
  | cons c l ih => simp [ih, add_assoc]

/-- Folding addition of the weights equals the sum of the mapped list. -/
theorem foldl_weight_eq_sum (l : List ScoreComponent) (init : ℚ) :
    l.foldl (fun sum c => sum + c.weight) init
      = init + (l.map (fun c => c.weight)).sum := by
  induction l generalizing init with
  | nil => simp
  | cons c l ih => simp [ih, add_assoc]

/-- The quizAverage virtual computes the same function as assignmentAverage. -/
theorem quizAverage_eq_assignmentAverage (l : List ScoreComponent) :
    quizAverage l = assignmentAverage l := rfl

/-- On a non-empty list whose weights are non-negative, the assignmentAverage
virtual agrees with the category percentage worded in the spec (with the
division-by-zero convention of ℚ covering the all-zero-weight case). -/
theorem assignmentAverage_eq_spec (cs : List ScoreComponent) (hcs : cs ≠ [])
    (hw : ∀ c ∈ cs, 0 ≤ c.weight) :
    assignmentAverage cs = specCategoryPercentage cs := by
  have hlen : ¬ cs.length = 0 := by simpa [List.length_eq_zero] using hcs
  simp only [assignmentAverage, specCategoryPercentage, if_neg hlen,
    foldl_score_eq_sum, foldl_weight_eq_sum, zero_add]
  by_cases hW : (0 : ℚ) < (cs.map (fun c => c.weight)).sum
  · rw [if_pos hW]
  · rw [if_neg hW]
    have hnn : (0 : ℚ) ≤ (cs.map (fun c => c.weight)).sum := by
      apply List.sum_nonneg
      intro x hx
      rcases List.mem_map.1 hx with ⟨c, hc, rfl⟩
      exact hw c hc
    have hz : (cs.map (fun c => c.weight)).sum = 0 := le_antisymm (not_lt.1 hW) hnn
    rw [hz, div_zero, zero_mul]

/-- C1: for every GradeRecord whose assignment and quiz weights are
non-negative (the data model admits only non-negative weights),
calculatedGrade equals the fixed-weight conditional-inclusion blend worded in
the spec: a category enters only when it has data, each included category
contributes categoryPercentage over 100 times its fixed weight (30, 20, 25,
25), the total is divided by the sum of included weights and multiplied by
100, and the result is 0 when no category has data. -/
theorem calculatedGrade_eq_specFinalPercentage (g : GradeRecord)
    (ha : ∀ c ∈ g.assignments, 0 ≤ c.weight)
    (hq : ∀ c ∈ g.quizzes, 0 ≤ c.weight) :
    calculatedGrade g = specFinalPercentage g := by
  simp only [calculatedGrade, specFinalPercentage, quizAverage_eq_assignmentAverage,
    gt_iff_lt, List.length_pos, ne_eq]
  by_cases hA : g.assignments = [] <;> by_cases hQ : g.quizzes = [] <;>
    cases hM : g.midterm.score <;> cases hF : g.final.score <;>
    simp only [hA, hQ, hM, hF, not_true_eq_false, not_false_eq_true, ite_true, ite_false,
      if_true, if_false] <;>
    (try rw [assignmentAverage_eq_spec g.assignments hA ha]) <;>
    (try rw [assignmentAverage_eq_spec g.quizzes hQ hq]) <;>
    norm_num

/-- Witness for C1: the blend theorem applied to the record gC1, whose weights
are non-negative. -/
theorem calculatedGrade_eq_specFinalPercentage_witness :
    calculatedGrade gC1 = specFinalPercentage gC1 :=
  calculatedGrade_eq_specFinalPercentage gC1
    (by intro c hc; simp only [gC1, List.mem_singleton] at hc; subst hc; norm_num)
    (by intro c hc; simp only [gC1, List.mem_singleton] at hc; subst hc; norm_num)

/-- Negation bridge for the descending threshold chain. -/
theorem notGe (a b : ℚ) (h : a < b) : ¬ a ≥ b := not_le.mpr h

/-- Negation bridge for the ascending interval chain. -/
theorem notLt (a b : ℚ) (h : b ≤ a) : ¬ a < b := not_lt.mpr h

/-- The letter chain of the source equals the interval table worded in the
spec. -/
theorem letterOf_eq_specLetterGrade (p : ℚ) : letterOf p = specLetterGrade p := by
  simp only [letterOf, specLetterGrade]
  rcases lt_or_le p 60 with h | h60
  · rw [if_pos h,
        if_neg (notGe p 97 (by linarith)),
        if_neg (notGe p 93 (by linarith)),
        if_neg (notGe p 90 (by linarith)),
        if_neg (notGe p 87 (by linarith)),
        if_neg (notGe p 83 (by linarith)),
        if_neg (notGe p 80 (by linarith)),
        if_neg (notGe p 77 (by linarith)),
        if_neg (notGe p 73 (by linarith)),
        if_neg (notGe p 70 (by linarith)),
        if_neg (notGe p 67 (by linarith)),
        if_neg (notGe p 63 (by linarith)),
        if_neg (notGe p 60 (by linarith))]
  rcases lt_or_le p 63 with h | h63
  · rw [if_neg (notLt p 60 (by linarith)),
        if_pos h,
        if_neg (notGe p 97 (by linarith)),
        if_neg (notGe p 93 (by linarith)),
        if_neg (notGe p 90 (by linarith)),
        if_neg (notGe p 87 (by linarith)),
        if_neg (notGe p 83 (by linarith)),
        if_neg (notGe p 80 (by linarith)),
        if_neg (notGe p 77 (by linarith)),
        if_neg (notGe p 73 (by linarith)),
        if_neg (notGe p 70 (by linarith)),
        if_neg (notGe p 67 (by linarith)),
        if_neg (notGe p 63 (by linarith)),
        if_pos (show p ≥ 60 from by linarith)]
  rcases lt_or_le p 67 with h | h67
  · rw [if_neg (notLt p 60 (by linarith)),
        if_neg (notLt p 63 (by linarith)),
        if_pos h,
        if_neg (notGe p 97 (by linarith)),
        if_neg (notGe p 93 (by linarith)),
        if_neg (notGe p 90 (by linarith)),
        if_neg (notGe p 87 (by linarith)),
        if_neg (notGe p 83 (by linarith)),
        if_neg (notGe p 80 (by linarith)),
        if_neg (notGe p 77 (by linarith)),
        if_neg (notGe p 73 (by linarith)),
        if_neg (notGe p 70 (by linarith)),
        if_neg (notGe p 67 (by linarith)),
        if_pos (show p ≥ 63 from by linarith)]
  rcases lt_or_le p 70 with h | h70
  · rw [if_neg (notLt p 60 (by linarith)),
        if_neg (notLt p 63 (by linarith)),
        if_neg (notLt p 67 (by linarith)),
        if_pos h,
        if_neg (notGe p 97 (by linarith)),
        if_neg (notGe p 93 (by linarith)),
        if_neg (notGe p 90 (by linarith)),
        if_neg (notGe p 87 (by linarith)),
        if_neg (notGe p 83 (by linarith)),
        if_neg (notGe p 80 (by linarith)),
        if_neg (notGe p 77 (by linarith)),
        if_neg (notGe p 73 (by linarith)),
        if_neg (notGe p 70 (by linarith)),
        if_pos (show p ≥ 67 from by linarith)]
  rcases lt_or_le p 73 with h | h73
  · rw [if_neg (notLt p 60 (by linarith)),
        if_neg (notLt p 63 (by linarith)),
        if_neg (notLt p 67 (by linarith)),
        if_neg (notLt p 70 (by linarith)),
        if_pos h,
        if_neg (notGe p 97 (by linarith)),
        if_neg (notGe p 93 (by linarith)),
        if_neg (notGe p 90 (by linarith)),
        if_neg (notGe p 87 (by linarith)),
        if_neg (notGe p 83 (by linarith)),
        if_neg (notGe p 80 (by linarith)),
        if_neg (notGe p 77 (by linarith)),
        if_neg (notGe p 73 (by linarith)),
        if_pos (show p ≥ 70 from by linarith)]
  rcases lt_or_le p 77 with h | h77
  · rw [if_neg (notLt p 60 (by linarith)),
        if_neg (notLt p 63 (by linarith)),
        if_neg (notLt p 67 (by linarith)),
        if_neg (notLt p 70 (by linarith)),
        if_neg (notLt p 73 (by linarith)),
        if_pos h,
        if_neg (notGe p 97 (by linarith)),
        if_neg (notGe p 93 (by linarith)),
        if_neg (notGe p 90 (by linarith)),
        if_neg (notGe p 87 (by linarith)),
        if_neg (notGe p 83 (by linarith)),
        if_neg (notGe p 80 (by linarith)),
        if_neg (notGe p 77 (by linarith)),
        if_pos (show p ≥ 73 from by linarith)]
  rcases lt_or_le p 80 with h | h80
  · rw [if_neg (notLt p 60 (by linarith)),
        if_neg (notLt p 63 (by linarith)),
        if_neg (notLt p 67 (by linarith)),
        if_neg (notLt p 70 (by linarith)),
        if_neg (notLt p 73 (by linarith)),
        if_neg (notLt p 77 (by linarith)),
        if_pos h,
        if_neg (notGe p 97 (by linarith)),
        if_neg (notGe p 93 (by linarith)),
        if_neg (notGe p 90 (by linarith)),
        if_neg (notGe p 87 (by linarith)),
        if_neg (notGe p 83 (by linarith)),
        if_neg (notGe p 80 (by linarith)),
        if_pos (show p ≥ 77 from by linarith)]
  rcases lt_or_le p 83 with h | h83
  · rw [if_neg (notLt p 60 (by linarith)),
        if_neg (notLt p 63 (by linarith)),
        if_neg (notLt p 67 (by linarith)),
        if_neg (notLt p 70 (by linarith)),
        if_neg (notLt p 73 (by linarith)),
        if_neg (notLt p 77 (by linarith)),
        if_neg (notLt p 80 (by linarith)),
        if_pos h,
        if_neg (notGe p 97 (by linarith)),
        if_neg (notGe p 93 (by linarith)),
        if_neg (notGe p 90 (by linarith)),
        if_neg (notGe p 87 (by linarith)),
        if_neg (notGe p 83 (by linarith)),
        if_pos (show p ≥ 80 from by linarith)]
  rcases lt_or_le p 87 with h | h87
  · rw [if_neg (notLt p 60 (by linarith)),
        if_neg (notLt p 63 (by linarith)),
        if_neg (notLt p 67 (by linarith)),
        if_neg (notLt p 70 (by linarith)),
        if_neg (notLt p 73 (by linarith)),
        if_neg (notLt p 77 (by linarith)),
        if_neg (notLt p 80 (by linarith)),
        if_neg (notLt p 83 (by linarith)),
        if_pos h,
        if_neg (notGe p 97 (by linarith)),
        if_neg (notGe p 93 (by linarith)),
        if_neg (notGe p 90 (by linarith)),
        if_neg (notGe p 87 (by linarith)),
        if_pos (show p ≥ 83 from by linarith)]
  rcases lt_or_le p 90 with h | h90
  · rw [if_neg (notLt p 60 (by linarith)),
        if_neg (notLt p 63 (by linarith)),
        if_neg (notLt p 67 (by linarith)),
        if_neg (notLt p 70 (by linarith)),
        if_neg (notLt p 73 (by linarith)),
        if_neg (notLt p 77 (by linarith)),
        if_neg (notLt p 80 (by linarith)),
        if_neg (notLt p 83 (by linarith)),
        if_neg (notLt p 87 (by linarith)),
        if_pos h,
        if_neg (notGe p 97 (by linarith)),
        if_neg (notGe p 93 (by linarith)),
        if_neg (notGe p 90 (by linarith)),
        if_pos (show p ≥ 87 from by linarith)]
  rcases lt_or_le p 93 with h | h93
  · rw [if_neg (notLt p 60 (by linarith)),
        if_neg (notLt p 63 (by linarith)),
        if_neg (notLt p 67 (by linarith)),
        if_neg (notLt p 70 (by linarith)),
        if_neg (notLt p 73 (by linarith)),
        if_neg (notLt p 77 (by linarith)),
        if_neg (notLt p 80 (by linarith)),
        if_neg (notLt p 83 (by linarith)),
        if_neg (notLt p 87 (by linarith)),
        if_neg (notLt p 90 (by linarith)),
        if_pos h,
        if_neg (notGe p 97 (by linarith)),
        if_neg (notGe p 93 (by linarith)),
        if_pos (show p ≥ 90 from by linarith)]
  rcases lt_or_le p 97 with h | h97
  · rw [if_neg (notLt p 60 (by linarith)),
        if_neg (notLt p 63 (by linarith)),
        if_neg (notLt p 67 (by linarith)),
        if_neg (notLt p 70 (by linarith)),
        if_neg (notLt p 73 (by linarith)),
        if_neg (notLt p 77 (by linarith)),
        if_neg (notLt p 80 (by linarith)),
        if_neg (notLt p 83 (by linarith)),
        if_neg (notLt p 87 (by linarith)),
        if_neg (notLt p 90 (by linarith)),
        if_neg (notLt p 93 (by linarith)),
        if_pos h,
        if_neg (notGe p 97 (by linarith)),
        if_pos (show p ≥ 93 from by linarith)]
  rw [if_neg (notLt p 60 (by linarith)),
      if_neg (notLt p 63 (by linarith)),
      if_neg (notLt p 67 (by linarith)),
      if_neg (notLt p 70 (by linarith)),
      if_neg (notLt p 73 (by linarith)),
      if_neg (notLt p 77 (by linarith)),
      if_neg (notLt p 80 (by linarith)),
      if_neg (notLt p 83 (by linarith)),
      if_neg (notLt p 87 (by linarith)),
      if_neg (notLt p 90 (by linarith)),
      if_neg (notLt p 93 (by linarith)),
      if_neg (notLt p 97 (by linarith)),
      if_pos (show p ≥ 97 from by linarith)]

/-- C2: the letter chain of the source is the highest-first threshold table
(stated as the equivalent disjoint-interval classifier), it is a total
function of the percentage, the boundary percentages map per the table, and
the gpa lookup is the fixed table of the spec. -/
theorem letterGrade_gpa_table :
    (∀ p : ℚ, letterOf p = specLetterGrade p) ∧
    (∀ g : GradeRecord, letterGradeFromPercentage g = letterOf (calculatedGrade g)) ∧
    (∀ g : GradeRecord, gpaFromLetter g = gpaMap (letterGradeFromPercentage g)) ∧
    letterOf 97 = "A+" ∧ letterOf 93 = "A" ∧ letterOf 90 = "A-" ∧ letterOf 87 = "B+" ∧
    letterOf 83 = "B" ∧ letterOf 80 = "B-" ∧ letterOf 77 = "C+" ∧ letterOf 73 = "C" ∧
    letterOf 70 = "C-" ∧ letterOf 67 = "D+" ∧ letterOf 63 = "D" ∧ letterOf 60 = "D-" ∧
    letterOf (5999/100) = "F" ∧
    gpaMap "A+" = 4 ∧ gpaMap "A" = 4 ∧ gpaMap "A-" = 37/10 ∧ gpaMap "B+" = 33/10 ∧
    gpaMap "B" = 3 ∧ gpaMap "B-" = 27/10 ∧ gpaMap "C+" = 23/10 ∧ gpaMap "C" = 2 ∧
    gpaMap "C-" = 17/10 ∧ gpaMap "D+" = 13/10 ∧ gpaMap "D" = 1 ∧ gpaMap "D-" = 7/10 ∧
    gpaMap "F" = 0 := by
  refine ⟨letterOf_eq_specLetterGrade, fun g => rfl, fun g => rfl,
    ?_, ?_, ?_, ?_, ?_, ?_, ?_, ?_, ?_, ?_, ?_, ?_, ?_,
    rfl, rfl, rfl, rfl, rfl, rfl, rfl, rfl, rfl, rfl, rfl, rfl, rfl⟩ <;>
  norm_num [letterOf]

/-- C8: the pre-save recomputation is idempotent on finalGrade, and after a
run the three finalGrade fields are mutually consistent: the letter is the
chain applied to the stored percentage and the gpa is the lookup applied to
the stored letter. -/
theorem recompute_idempotent_consistent (g : GradeRecord) :
    (recompute (recompute g)).finalGrade = (recompute g).finalGrade ∧
    (recompute g).finalGrade.letterGrade = letterOf ((recompute g).finalGrade.percentage) ∧
    (recompute g).finalGrade.gpa = gpaMap ((recompute g).finalGrade.letterGrade) :=
  ⟨rfl, rfl, rfl⟩

/-- Appending a weight-0 quiz to a non-empty quiz list leaves the quizAverage
virtual unchanged. -/
theorem quizAverage_append_zero_weight (qs : List ScoreComponent) (q : ScoreComponent)
    (hne : qs ≠ []) (hw : q.weight = 0) :
    quizAverage (qs ++ [q]) = quizAverage qs := by
  have h1 : ¬ (qs ++ [q]).length = 0 := by simp
  have h2 : ¬ qs.length = 0 := by simpa [List.length_eq_zero] using hne
  simp only [quizAverage, if_neg h1, if_neg h2, List.foldl_append, List.foldl_cons,
    List.foldl_nil, hw, mul_zero, add_zero]

/-- C6 counterexample: on the record gC6, whose quiz list is empty, appending
the weight-0 quiz qC6 changes finalGrade.percentage (from 100 to 60), because
the quiz category is then included at its fixed weight 20 with a category
average of 0. -/
theorem addQuiz_zero_weight_counterexample :
    (addQuiz gC6 qC6).finalGrade.percentage ≠ (recompute gC6).finalGrade.percentage := by
  show calculatedGrade { gC6 with quizzes := gC6.quizzes ++ [qC6] } ≠ calculatedGrade gC6
  norm_num [calculatedGrade, assignmentAverage, quizAverage, gC6, qC6]

/-- C6 amended: appending a quiz with weight 0 (and positive maxScore, per the
data model) to a GradeRecord whose quiz list is already non-empty never
changes finalGrade.percentage. -/
theorem addQuiz_zero_weight_preserves_percentage (g : GradeRecord) (q : ScoreComponent)
    (hne : g.quizzes ≠ []) (hw : q.weight = 0) (_hm : 0 < q.maxScore) :
    (addQuiz g q).finalGrade.percentage = (recompute g).finalGrade.percentage := by
  show calculatedGrade { g with quizzes := g.quizzes ++ [q] } = calculatedGrade g
  have hq1 : (g.quizzes ++ [q]).length > 0 := by simp
  have hq2 : g.quizzes.length > 0 := List.length_pos.mpr hne
  simp only [calculatedGrade, quizAverage_append_zero_weight g.quizzes q hne hw,
    if_pos hq1, if_pos hq2]

/-- Witness for the amended C6 theorem: appending qC6 to the record gC6W,
whose quiz list is non-empty, leaves finalGrade.percentage unchanged. -/
theorem addQuiz_zero_weight_preserves_percentage_witness :
    (addQuiz gC6W qC6).finalGrade.percentage = (recompute gC6W).finalGrade.percentage :=
  addQuiz_zero_weight_preserves_percentage gC6W qC6 (by simp [gC6W]) rfl (by norm_num [qC6])

/-- On a non-empty list in which every score equals its maxScore, every
maxScore is non-zero and the total weight is positive, the assignmentAverage
virtual is 100. -/
theorem assignmentAverage_perfect (cs : List ScoreComponent) (hne : cs ≠ [])
    (hs : ∀ c ∈ cs, c.score = c.maxScore ∧ c.maxScore ≠ 0)
    (hw : 0 < (cs.map (fun c => c.weight)).sum) :
    assignmentAverage cs = 100 := by
  have hlen : ¬ cs.length = 0 := by simpa [List.length_eq_zero] using hne
  have hmap : cs.map (fun c => (c.score / c.maxScore) * c.weight)
      = cs.map (fun c => c.weight) := by
    apply List.map_congr_left
    intro c hc
    obtain ⟨h1, h2⟩ := hs c hc
    rw [h1, div_self h2, one_mul]
  simp only [assignmentAverage, if_neg hlen, foldl_score_eq_sum, foldl_weight_eq_sum,
    zero_add, hmap, if_pos hw]
  rw [div_self (ne_of_gt hw), one_mul]

/-- C7 counterexample: in the record gC7bad the only present component aC7 has
score equal to maxScore, yet finalGrade.percentage is 0 and the letter is F,
because the assignment category carries total weight 0 and the virtual then
reports a category average of 0 at the fixed inclusion weight 30. -/
theorem perfect_scores_counterexample :
    gC7bad.assignments = [aC7] ∧ aC7.score = aC7.maxScore ∧
    (recompute gC7bad).finalGrade.percentage = 0 ∧
    (recompute gC7bad).finalGrade.letterGrade = "F" := by
  have h0 : calculatedGrade gC7bad = 0 := by
    norm_num [calculatedGrade, assignmentAverage, quizAverage, gC7bad, aC7]
  refine ⟨rfl, rfl, h0, ?_⟩
  show letterOf (calculatedGrade gC7bad) = "F"
  rw [h0]
  norm_num [letterOf]

/-- C7 amended: when at least one category has data, every present score
component is at full marks with non-zero maxScore, and each non-empty list
category has positive total weight, finalGrade.percentage is 100 and the
letter is A+. -/
theorem perfect_scores_give_A_plus (g : GradeRecord)
    (hA : ∀ c ∈ g.assignments, c.score = c.maxScore ∧ c.maxScore ≠ 0)
    (hQ : ∀ c ∈ g.quizzes, c.score = c.maxScore ∧ c.maxScore ≠ 0)
    (hAw : g.assignments ≠ [] → 0 < (g.assignments.map (fun c => c.weight)).sum)
    (hQw : g.quizzes ≠ [] → 0 < (g.quizzes.map (fun c => c.weight)).sum)
    (hM : ∀ s, g.midterm.score = some s → s = g.midterm.maxScore ∧ g.midterm.maxScore ≠ 0)
    (hF : ∀ s, g.final.score = some s → s = g.final.maxScore ∧ g.final.maxScore ≠ 0)
    (hsome : g.assignments ≠ [] ∨ g.quizzes ≠ [] ∨
      g.midterm.score ≠ none ∨ g.final.score ≠ none) :
    (recompute g).finalGrade.percentage = 100 ∧
    (recompute g).finalGrade.letterGrade = "A+" := by
  have hP : calculatedGrade g = 100 := by
    simp only [calculatedGrade, quizAverage_eq_assignmentAverage, gt_iff_lt,
      List.length_pos, ne_eq]
    by_cases hA1 : g.assignments = []
    ·
      by_cases hQ1 : g.quizzes = []
      ·
        cases hM1 : g.midterm.score with
        | none =>
          cases hF1 : g.final.score with
          | none =>
            simp only [hA1, hQ1, hM1, hF1, not_true_eq_false, not_false_eq_true,
              ite_true, ite_false, if_true, if_false]
            exfalso; rcases hsome with h | h | h | h <;> simp_all
          | some sf =>
            obtain ⟨hf1, hf2⟩ := hF sf hF1
            simp only [hA1, hQ1, hM1, hF1, not_true_eq_false, not_false_eq_true,
              ite_true, ite_false, if_true, if_false]
            rw [hf1, div_self hf2]
            norm_num
        | some s =>
          cases hF1 : g.final.score with
          | none =>
            obtain ⟨hm1, hm2⟩ := hM s hM1
            simp only [hA1, hQ1, hM1, hF1, not_true_eq_false, not_false_eq_true,
              ite_true, ite_false, if_true, if_false]
            rw [hm1, div_self hm2]
            norm_num
          | some sf =>
            obtain ⟨hm1, hm2⟩ := hM s hM1
            obtain ⟨hf1, hf2⟩ := hF sf hF1
            simp only [hA1, hQ1, hM1, hF1, not_true_eq_false, not_false_eq_true,
              ite_true, ite_false, if_true, if_false]
            rw [hm1, div_self hm2]
            rw [hf1, div_self hf2]
            norm_num
      ·
        cases hM1 : g.midterm.score with
        | none =>
          cases hF1 : g.final.score with
          | none =>
            simp only [hA1, hQ1, hM1, hF1, not_true_eq_false, not_false_eq_true,
              ite_true, ite_false, if_true, if_false]
            rw [assignmentAverage_perfect g.quizzes hQ1 hQ (hQw hQ1)]
            norm_num
          | some sf =>
            obtain ⟨hf1, hf2⟩ := hF sf hF1
            simp only [hA1, hQ1, hM1, hF1, not_true_eq_false, not_false_eq_true,
              ite_true, ite_false, if_true, if_false]
            rw [assignmentAverage_perfect g.quizzes hQ1 hQ (hQw hQ1)]
            rw [hf1, div_self hf2]
            norm_num
        | some s =>
          cases hF1 : g.final.score with
          | none =>
            obtain ⟨hm1, hm2⟩ := hM s hM1
            simp only [hA1, hQ1, hM1, hF1, not_true_eq_false, not_false_eq_true,
              ite_true, ite_false, if_true, if_false]
            rw [assignmentAverage_perfect g.quizzes hQ1 hQ (hQw hQ1)]
            rw [hm1, div_self hm2]
            norm_num
          | some sf =>
            obtain ⟨hm1, hm2⟩ := hM s hM1
            obtain ⟨hf1, hf2⟩ := hF sf hF1
            simp only [hA1, hQ1, hM1, hF1, not_true_eq_false, not_false_eq_true,
              ite_true, ite_false, if_true, if_false]
            rw [assignmentAverage_perfect g.quizzes hQ1 hQ (hQw hQ1)]
            rw [hm1, div_self hm2]
            rw [hf1, div_self hf2]
            norm_num
    ·
      by_cases hQ1 : g.quizzes = []
      ·
        cases hM1 : g.midterm.score with
        | none =>
          cases hF1 : g.final.score with
          | none =>
            simp only [hA1, hQ1, hM1, hF1, not_true_eq_false, not_false_eq_true,
              ite_true, ite_false, if_true, if_false]
            rw [assignmentAverage_perfect g.assignments hA1 hA (hAw hA1)]
            norm_num
          | some sf =>
            obtain ⟨hf1, hf2⟩ := hF sf hF1
            simp only [hA1, hQ1, hM1, hF1, not_true_eq_false, not_false_eq_true,
              ite_true, ite_false, if_true, if_false]
            rw [assignmentAverage_perfect g.assignments hA1 hA (hAw hA1)]
            rw [hf1, div_self hf2]
            norm_num
        | some s =>
          cases hF1 : g.final.score with
          | none =>
            obtain ⟨hm1, hm2⟩ := hM s hM1
            simp only [hA1, hQ1, hM1, hF1, not_true_eq_false, not_false_eq_true,
              ite_true, ite_false, if_true, if_false]
            rw [assignmentAverage_perfect g.assignments hA1 hA (hAw hA1)]
            rw [hm1, div_self hm2]
            norm_num
          | some sf =>
            obtain ⟨hm1, hm2⟩ := hM s hM1
            obtain ⟨hf1, hf2⟩ := hF sf hF1
            simp only [hA1, hQ1, hM1, hF1, not_true_eq_false, not_false_eq_true,
              ite_true, ite_false, if_true, if_false]
            rw [assignmentAverage_perfect g.assignments hA1 hA (hAw hA1)]
            rw [hm1, div_self hm2]
            rw [hf1, div_self hf2]
            norm_num
      ·
        cases hM1 : g.midterm.score with
        | none =>
          cases hF1 : g.final.score with
          | none =>
            simp only [hA1, hQ1, hM1, hF1, not_true_eq_false, not_false_eq_true,
              ite_true, ite_false, if_true, if_false]
            rw [assignmentAverage_perfect g.assignments hA1 hA (hAw hA1)]
            rw [assignmentAverage_perfect g.quizzes hQ1 hQ (hQw hQ1)]
            norm_num
          | some sf =>
            obtain ⟨hf1, hf2⟩ := hF sf hF1
            simp only [hA1, hQ1, hM1, hF1, not_true_eq_false, not_false_eq_true,
              ite_true, ite_false, if_true, if_false]
            rw [assignmentAverage_perfect g.assignments hA1 hA (hAw hA1)]
            rw [assignmentAverage_perfect g.quizzes hQ1 hQ (hQw hQ1)]
            rw [hf1, div_self hf2]
            norm_num
        | some s =>
          cases hF1 : g.final.score with
          | none =>
            obtain ⟨hm1, hm2⟩ := hM s hM1
            simp only [hA1, hQ1, hM1, hF1, not_true_eq_false, not_false_eq_true,
              ite_true, ite_false, if_true, if_false]
            rw [assignmentAverage_perfect g.assignments hA1 hA (hAw hA1)]
            rw [assignmentAverage_perfect g.quizzes hQ1 hQ (hQw hQ1)]
            rw [hm1, div_self hm2]
            norm_num
          | some sf =>
            obtain ⟨hm1, hm2⟩ := hM s hM1
            obtain ⟨hf1, hf2⟩ := hF sf hF1
            simp only [hA1, hQ1, hM1, hF1, not_true_eq_false, not_false_eq_true,
              ite_true, ite_false, if_true, if_false]
            rw [assignmentAverage_perfect g.assignments hA1 hA (hAw hA1)]
            rw [assignmentAverage_perfect g.quizzes hQ1 hQ (hQw hQ1)]
            rw [hm1, div_self hm2]
            rw [hf1, div_self hf2]
            norm_num
  refine ⟨hP, ?_⟩
  show letterOf (calculatedGrade g) = "A+"
  rw [hP]
  norm_num [letterOf]

/-- Witness for the amended C7 theorem: the record gC7 with full marks in all
four categories gets percentage 100 and letter A+. -/
theorem perfect_scores_give_A_plus_witness :
    (recompute gC7).finalGrade.percentage = 100 ∧
    (recompute gC7).finalGrade.letterGrade = "A+" :=
  perfect_scores_give_A_plus gC7
    (by intro c hc; simp only [gC7, List.mem_singleton] at hc; subst hc; norm_num)
    (by intro c hc; simp only [gC7, List.mem_singleton] at hc; subst hc; norm_num)
    (by intro h; norm_num [gC7])
    (by intro h; norm_num [gC7])
    (by intro s hs; simp only [gC7, Option.some.injEq] at hs; subst hs; norm_num [gC7])
    (by intro s hs; simp only [gC7, Option.some.injEq] at hs; subst hs; norm_num [gC7])
    (Or.inl (by simp [gC7]))

/-- C5: on the list csC5, which contains a component with maxScore below 0,
the category average computes the plain number 0 and signals no error: the
virtual has no error channel and no maxScore validation anywhere on the
intake path. -/
theorem categoryAverage_nonpositive_maxScore_no_error :
    assignmentAverage csC5 = 0 := by
  norm_num [assignmentAverage, csC5]

/-- C9: every route mutation of a published GradeRecord (field update, adding
an assignment, adding a quiz) is rejected with the published-grade error and
leaves the stored record unchanged. -/
theorem published_grade_rejects_mutation (g : GradeRecord) (b : GradeUpdateBody)
    (a q : ScoreComponent) (hp : g.isPublished = true) :
    updateGradeHandler g b = ⟨some GradeError.gradePublished, g⟩ ∧
    addAssignmentHandler g a = ⟨some GradeError.gradePublished, g⟩ ∧
    addQuizHandler g q = ⟨some GradeError.gradePublished, g⟩ := by
  refine ⟨?_, ?_, ?_⟩ <;> simp [updateGradeHandler, addAssignmentHandler, addQuizHandler, hp]

/-- Witness for C9: the published record gC9 rejects the update body bC9 and
the component additions. -/
theorem published_grade_rejects_mutation_witness :
    gC9.isPublished = true ∧
    (updateGradeHandler gC9 bC9 = ⟨some GradeError.gradePublished, gC9⟩ ∧
     addAssignmentHandler gC9 ⟨10, 5, 1⟩ = ⟨some GradeError.gradePublished, gC9⟩ ∧
     addQuizHandler gC9 ⟨10, 5, 1⟩ = ⟨some GradeError.gradePublished, gC9⟩) :=
  ⟨rfl, published_grade_rejects_mutation gC9 bC9 ⟨10, 5, 1⟩ ⟨10, 5, 1⟩ rfl⟩

/-- The attendance pre-save hook never changes isLocked. -/
theorem preSaveAttendance_isLocked (d : AttendanceDoc) :
    (preSaveAttendance d).isLocked = d.isLocked := by
  simp only [preSaveAttendance]
  split_ifs <;> rfl

/-- The attendance pre-save hook never changes lockedBy. -/
theorem preSaveAttendance_lockedBy (d : AttendanceDoc) :
    (preSaveAttendance d).lockedBy = d.lockedBy := by
  simp only [preSaveAttendance]
  split_ifs <;> rfl

/-- The attendance pre-save hook never changes lockedAt. -/
theorem preSaveAttendance_lockedAt (d : AttendanceDoc) :
    (preSaveAttendance d).lockedAt = d.lockedAt := by
  simp only [preSaveAttendance]
  split_ifs <;> rfl

/-- C4 counterexample: on the locked day dC4 the markAttendance document
method succeeds and mutates the records (it contains no isLocked check), so
not every mutation operation on a locked day is rejected. -/
theorem markAttendance_ignores_lock_counterexample :
    dC4.isLocked = true ∧
    markAttendance dC4 1 AttStatus.late "" 5 = Except.ok dC4After ∧
    dC4After.records ≠ dC4.records := by
  refine ⟨rfl, ?_, by decide⟩
  norm_num +decide [markAttendance, setRecordStatus, preSaveAttendance, round2, round_eq,
    dC4, dC4After]

/-- C4 amended: on every day, in particular one currently Open, the lock
action sets isLocked and records the actor and timestamp; an attempted route
mutation after locking is rejected with the locked error and leaves the stored
document unchanged, as is one on any day already locked; the unlock action
clears isLocked, the actor and the timestamp; and after unlock the route
accepts mutations again; the markAttendance document method, however,
bypasses the lock (see the counterexample). -/
theorem lock_unlock_state_machine (d : AttendanceDoc) (u t t2 : Nat) (b : AttUpdateBody) :
    (lockAttendance d u t).isLocked = true ∧
    (lockAttendance d u t).lockedBy = some u ∧
    (lockAttendance d u t).lockedAt = some t ∧
    updateAttendanceHandler (lockAttendance d u t) b t2
      = ⟨some AttendanceError.attendanceLocked, lockAttendance d u t⟩ ∧
    (d.isLocked = true →
      updateAttendanceHandler d b t2 = ⟨some AttendanceError.attendanceLocked, d⟩) ∧
    (unlockAttendance d).isLocked = false ∧
    (unlockAttendance d).lockedBy = none ∧
    (unlockAttendance d).lockedAt = none ∧
    (updateAttendanceHandler (unlockAttendance d) b t2).error = none := by
  have hLock : (lockAttendance d u t).isLocked = true := by
    rw [lockAttendance, preSaveAttendance_isLocked]
  have hUn : (unlockAttendance d).isLocked = false := by
    rw [unlockAttendance, preSaveAttendance_isLocked]
  refine ⟨hLock, ?_, ?_, ?_, ?_, hUn, ?_, ?_, ?_⟩
  · rw [lockAttendance, preSaveAttendance_lockedBy]
  · rw [lockAttendance, preSaveAttendance_lockedAt]
  · simp [updateAttendanceHandler, hLock]
  · intro hl
    simp [updateAttendanceHandler, hl]
  · rw [unlockAttendance, preSaveAttendance_lockedBy]
  · rw [unlockAttendance, preSaveAttendance_lockedAt]
  · simp [updateAttendanceHandler, hUn]

/-- Witness for the amended C4 theorem: the open day dC4Open is locked
(Open to Locked, recording actor 9 and time 4) and the route then rejects
a mutation; the already-locked day dC4 rejects a mutation directly; and
unlocking dC4 clears the lock and the route accepts again. -/
theorem lock_unlock_state_machine_witness :
    dC4Open.isLocked = false ∧
    ((lockAttendance dC4Open 9 4).isLocked = true ∧
     (lockAttendance dC4Open 9 4).lockedBy = some 9 ∧
     (lockAttendance dC4Open 9 4).lockedAt = some 4 ∧
     updateAttendanceHandler (lockAttendance dC4Open 9 4) bC4 7
       = ⟨some AttendanceError.attendanceLocked, lockAttendance dC4Open 9 4⟩) ∧
    dC4.isLocked = true ∧
    updateAttendanceHandler dC4 bC4 7 = ⟨some AttendanceError.attendanceLocked, dC4⟩ ∧
    ((unlockAttendance dC4).isLocked = false ∧
     (unlockAttendance dC4).lockedBy = none ∧
     (unlockAttendance dC4).lockedAt = none ∧
     (updateAttendanceHandler (unlockAttendance dC4) bC4 7).error = none) :=
  ⟨rfl,
   ⟨(lock_unlock_state_machine dC4Open 9 4 7 bC4).1,
    (lock_unlock_state_machine dC4Open 9 4 7 bC4).2.1,
    (lock_unlock_state_machine dC4Open 9 4 7 bC4).2.2.1,
    (lock_unlock_state_machine dC4Open 9 4 7 bC4).2.2.2.1⟩,
   rfl,
   (lock_unlock_state_machine dC4 9 4 7 bC4).2.2.2.2.1 rfl,
   ⟨(lock_unlock_state_machine dC4 9 4 7 bC4).2.2.2.2.2.1,
    (lock_unlock_state_machine dC4 9 4 7 bC4).2.2.2.2.2.2.1,
    (lock_unlock_state_machine dC4 9 4 7 bC4).2.2.2.2.2.2.2.1,
    (lock_unlock_state_machine dC4 9 4 7 bC4).2.2.2.2.2.2.2.2⟩⟩

/-- C3 counterexample: the day rsC3 holds one present and one suspended
record, and after the pre-save recomputation the complete stored document is
as shown: the four counters hold 1, 0, 0, 0 and the percentage is 100, so the
suspended record is tallied in no stored counter; the schema has no
suspendedCount field at all. -/
theorem attendance_no_suspendedCount_counterexample :
    rsC3.countP (fun r => r.status = AttStatus.suspended) = 1 ∧
    preSaveAttendance (freshAttendance rsC3) =
      { records := rsC3, totalStudents := 2, presentCount := 1, absentCount := 0,
        lateCount := 0, excusedCount := 0, attendancePercentage := 100, notes := "",
        isLocked := false, lockedBy := none, lockedAt := none } := by
  refine ⟨by decide, ?_⟩
  norm_num +decide [preSaveAttendance, freshAttendance, rsC3, round2, round_eq]

/-- C3 amended: on a freshly created day the pre-save recomputation counts the
records by status into the four stored counters (suspended records are counted
in none of them), sets the percentage to (present + late) over
(present + absent + late + excused) times 100 rounded to two decimal places,
leaves the percentage at its default 0 when that denominator is 0, and the
worked example [present, present, absent, late] yields 75. -/
theorem attendance_tally_and_percentage (rs : List AttRecord) :
    (preSaveAttendance (freshAttendance rs)).presentCount
        = rs.countP (fun r => r.status = AttStatus.present) ∧
    (preSaveAttendance (freshAttendance rs)).absentCount
        = rs.countP (fun r => r.status = AttStatus.absent) ∧
    (preSaveAttendance (freshAttendance rs)).lateCount
        = rs.countP (fun r => r.status = AttStatus.late) ∧
    (preSaveAttendance (freshAttendance rs)).excusedCount
        = rs.countP (fun r => r.status = AttStatus.excused) ∧
    (preSaveAttendance (freshAttendance rs)).attendancePercentage =
      (if rs.countP (fun r => r.status = AttStatus.present)
          + rs.countP (fun r => r.status = AttStatus.absent)
          + rs.countP (fun r => r.status = AttStatus.late)
          + rs.countP (fun r => r.status = AttStatus.excused) = 0 then 0
       else round2 ((((rs.countP (fun r => r.status = AttStatus.present) : ℚ)
              + (rs.countP (fun r => r.status = AttStatus.late) : ℚ))
            / ((rs.countP (fun r => r.status = AttStatus.present) : ℚ)
              + (rs.countP (fun r => r.status = AttStatus.absent) : ℚ)
              + (rs.countP (fun r => r.status = AttStatus.late) : ℚ)
              + (rs.countP (fun r => r.status = AttStatus.excused) : ℚ))) * 100)) ∧
    (preSaveAttendance (freshAttendance rs75)).attendancePercentage = 75 := by
  have h75 : (preSaveAttendance (freshAttendance rs75)).attendancePercentage = 75 := by
    norm_num +decide [preSaveAttendance, freshAttendance, rs75, round2, round_eq]
  by_cases hrs : rs.length = 0
  · have h0 : rs = [] := List.length_eq_zero.mp hrs
    subst h0
    refine ⟨?_, ?_, ?_, ?_, ?_, h75⟩ <;> simp [preSaveAttendance, freshAttendance]
  · have hpos : rs.length > 0 := Nat.pos_of_ne_zero hrs
    simp only [preSaveAttendance, freshAttendance, if_pos hpos,
      List.countP_eq_length_filter]
    refine ⟨?_, ?_, ?_, ?_, ?_, h75⟩ <;>
      split_ifs <;>
      first
        | rfl
        | omega
        | (push_cast; ring_nf)

/-- A status different from suspended filters to nothing in an all-suspended
record list. -/
theorem filter_status_nil_of_all_suspended (d : AttendanceDoc)
    (hsus : ∀ r ∈ d.records, r.status = AttStatus.suspended)
    (st : AttStatus) (hst : st ≠ AttStatus.suspended) :
    (d.records.filter (fun r => r.status = st)).length = 0 := by
  rw [List.length_eq_zero, List.filter_eq_nil_iff]
  intro r hr
  simp only [hsus r hr, decide_eq_true_eq]
  exact fun h => hst h.symm

/-- C10: the attendance pre-save recomputation is the identity when the
records list is empty, so every previously stored aggregate (the four counters
and the percentage) survives the save; and when the records are non-empty but
all suspended, the counters are recomputed to 0 while the previously stored
percentage survives the save. -/
theorem attendance_stale_aggregates (d : AttendanceDoc) :
    (d.records = [] → preSaveAttendance d = d) ∧
    (d.records ≠ [] → (∀ r ∈ d.records, r.status = AttStatus.suspended) →
      (preSaveAttendance d).attendancePercentage = d.attendancePercentage ∧
      (preSaveAttendance d).presentCount = 0 ∧
      (preSaveAttendance d).absentCount = 0 ∧
      (preSaveAttendance d).lateCount = 0 ∧
      (preSaveAttendance d).excusedCount = 0) := by
  constructor
  · intro h
    simp [preSaveAttendance, h]
  · intro hne hsus
    have hlen : d.records.length > 0 := List.length_pos.mpr hne
    have h1 := filter_status_nil_of_all_suspended d hsus AttStatus.present (by simp)
    have h2 := filter_status_nil_of_all_suspended d hsus AttStatus.absent (by simp)
    have h3 := filter_status_nil_of_all_suspended d hsus AttStatus.late (by simp)
    have h4 := filter_status_nil_of_all_suspended d hsus AttStatus.excused (by simp)
    simp [preSaveAttendance, if_pos hlen, h1, h2, h3, h4]

/-- Witness for C10: the document dC10empty keeps its stale counters and
percentage untouched across the save, and the all-suspended document dC10susp
keeps its stale percentage untouched across the save. -/
theorem attendance_stale_aggregates_witness :
    preSaveAttendance dC10empty = dC10empty ∧
    (preSaveAttendance dC10susp).attendancePercentage = dC10susp.attendancePercentage :=
  ⟨(attendance_stale_aggregates dC10empty).1 rfl,
   ((attendance_stale_aggregates dC10susp).2 (by decide)
      (by intro r hr; simp only [dC10susp, List.mem_singleton] at hr; subst hr; rfl)).1⟩

end SchoolMS
